import Mathlib

/-!
Verification development for the aah framework response-assembly subsystem
(`reply.go`): the `Reply` builder, its fluent configuration surface, and the
built-in renderers (JSON, JSONP, secure JSON, XML, binary, text, HTML).

The Go code is shallowly embedded: the mutable `*Reply` becomes a Lean
structure threaded by value (every fluent method returns the updated value),
writers become an explicit writer state with a fault model, and the file
system becomes an explicit lookup function.  Standard-library behaviour that
the code relies on (`strings.ToLower`, `strings.Title`, `json.Marshal`,
`encoding/xml` token encoding) is modelled for the ASCII fragment the
framework exercises.
-/

/-! ## Go string helpers -/

/-- ASCII fragment of Go `strings.ToLower`: lower-case every character.
(Lean `Char.toLower` lower-cases exactly the ASCII letters, which matches
Go on the ASCII content-type strings used by the framework.) -/
def stringsToLower (s : String) : String :=
  String.mk (s.data.map Char.toLower)

/-- ASCII fragment of Go `strings.isSeparator` (used by `strings.Title`):
digits, letters and the underscore are not separators, every other ASCII
character is. -/
def goIsSeparator (c : Char) : Bool :=
  !(c.isDigit || c.isLower || c.isUpper || c == '_')

/-- One step of `strings.Title`: upper-case a character that follows a
separator, and remember the current character as the new previous one. -/
def titleStep (acc : String × Char) (c : Char) : String × Char :=
  if goIsSeparator acc.2 then (acc.1.push c.toUpper, c) else (acc.1.push c, c)

/-- ASCII fragment of Go `strings.Title`: title-case the first letter of
every word (the previous character starts out as a space, i.e. a
separator). -/
def stringsTitle (s : String) : String :=
  (s.data.foldl titleStep ("", ' ')).1

/-! ## Values carried in `aah.Data` (`map[string]interface{}`)

Go stores `interface{}` values; the mapper prints them with `fmt.Sprintf
with the '%v' verb`.  We model the value universe the framework's data maps
carry: strings, integers and booleans, with their Go default formatting. -/

inductive GoVal where
  | str (s : String)
  | int (n : Int)
  | bool (b : Bool)
deriving DecidableEq

/-- Go `fmt.Sprintf` with the `%v` verb on the modelled value universe. -/
def goSprintV : GoVal → String
  | GoVal.str s => s
  | GoVal.int n => toString n
  | GoVal.bool b => if b then "true" else "false"

/-! ## JSON model (`encoding/json`)

JSON values are modelled as a mutual inductive (the field list and element
list are their own inductives so that all recursion below is structural and
kernel-reducible).  `jsonMarshal` models `json.Marshal`: compact output, no
trailing newline, with Go's default string escaping (including the HTML
escapes for the angle brackets and the ampersand).  Go marshals its maps
with sorted keys; a `JObj` is an already-ordered field list, so a faithful
Go payload lists its keys in sorted order. -/

mutual
inductive JVal where
  | jnull
  | jbool (b : Bool)
  | jnum (n : Int)
  | jstr (s : String)
  | jarr (xs : JArr)
  | jobj (fs : JObj)

inductive JArr where
  | nil
  | cons (v : JVal) (rest : JArr)

inductive JObj where
  | nil
  | cons (k : String) (v : JVal) (rest : JObj)
end

/-- Go `encoding/json` escaping of a single character inside a string
literal (default encoder: HTML-escapes angle brackets and ampersand,
backslash-escapes the quote, backslash, newline, carriage return and tab,
and uses a unicode escape for the remaining control characters). -/
def jsonEscapeChar (c : Char) : String :=
  if c = '"' then "\\\""
  else if c = '\\' then "\\\\"
  else if c = '\n' then "\\n"
  else if c = '\r' then "\\r"
  else if c = '\t' then "\\t"
  else if c = '<' then "\\u003c"
  else if c = '>' then "\\u003e"
  else if c = '&' then "\\u0026"
  else if c.toNat < 32 then "\\u00" ++ String.mk [Char.ofNat (if c.toNat / 16 = 0 then 48 else 49), Char.ofNat (if c.toNat % 16 < 10 then 48 + c.toNat % 16 else 87 + c.toNat % 16)]
  else String.mk [c]

/-- Go `encoding/json` escaping of a whole string literal body. -/
def jsonEscape (s : String) : String :=
  String.join (s.data.map jsonEscapeChar)

mutual
/-- Model of `json.Marshal`: compact JSON bytes, no trailing newline. -/
def jsonMarshal : JVal → String
  | JVal.jnull => "null"
  | JVal.jbool b => if b then "true" else "false"
  | JVal.jnum n => toString n
  | JVal.jstr s => "\"" ++ jsonEscape s ++ "\""
  | JVal.jarr xs => "[" ++ jsonMarshalArr xs ++ "]"
  | JVal.jobj fs => "\x7b" ++ jsonMarshalObj fs ++ "\x7d"

/-- Comma-separated marshal of the elements of a JSON array. -/
def jsonMarshalArr : JArr → String
  | JArr.nil => ""
  | JArr.cons v rest => jsonMarshal v ++ jsonMarshalArrRest rest

/-- Marshal of the remaining array elements, each preceded by a comma. -/
def jsonMarshalArrRest : JArr → String
  | JArr.nil => ""
  | JArr.cons v rest => "," ++ jsonMarshal v ++ jsonMarshalArrRest rest

/-- Comma-separated marshal of the fields of a JSON object. -/
def jsonMarshalObj : JObj → String
  | JObj.nil => ""
  | JObj.cons k v rest => "\"" ++ jsonEscape k ++ "\":" ++ jsonMarshal v ++ jsonMarshalObjRest rest

/-- Marshal of the remaining object fields, each preceded by a comma. -/
def jsonMarshalObjRest : JObj → String
  | JObj.nil => ""
  | JObj.cons k v rest => ",\"" ++ jsonEscape k ++ "\":" ++ jsonMarshal v ++ jsonMarshalObjRest rest
end

/-! ## Sink model

A Go writer (the output sink handed to a renderer) is modelled as an
accumulated output string plus a fault
model: `failAt = some k` makes the k-th write call (0-based over the
writer's lifetime) report an error without accepting the bytes.  Each
renderer's `Render` returns the final writer state together with the error
result, mirroring the Go signature of the render contract. -/

structure Sink where
  failAt : Option Nat
  calls : Nat
  out : String
deriving DecidableEq

/-- One `Write` call against the sink: fails (accepting nothing) exactly
when the fault model says this call fails. -/
def Sink.write (w : Sink) (s : String) : Sink × Except String Unit :=
  if w.failAt = some w.calls then
    ({ w with calls := w.calls + 1 }, Except.error "write failed")
  else
    ({ w with calls := w.calls + 1, out := w.out ++ s }, Except.ok ())

/-- A fresh, fault-free sink. -/
def Sink.fresh : Sink :=
  { failAt := none, calls := 0, out := "" }

/-! ## JSONP renderer (`jsonpRender`) -/

structure jsonpRender where
  Callback : String
  Data : JVal

/-- `jsonpRender.Render`: marshal the payload; with an empty callback write
the raw JSON bytes, otherwise write the single formatted chunk
produced by the wrapper format (per cent s, parenthesis, per cent s,
parenthesis, semicolon) — `fmt.Fprintf` issues one write of the formatted
bytes. -/
def jsonpRender.Render (j : jsonpRender) (w : Sink) : Sink × Except String Unit :=
  if j.Callback.length = 0 then
    w.write (jsonMarshal j.Data)
  else
    w.write (j.Callback ++ "(" ++ jsonMarshal j.Data ++ ");")

/-- `jsonRender.Render` writes the output of `json.NewEncoder(w).Encode`,
which is the marshalled bytes followed by a newline. -/
structure jsonRender where
  Data : JVal

def jsonRender.Render (j : jsonRender) (w : Sink) : Sink × Except String Unit :=
  w.write (jsonMarshal j.Data ++ "\n")


/-! ## XML model (`encoding/xml`)

The claims about the XML side concern token structure (which tokens
`Data.MarshalXML` emits, and that it flushes the encoder) and byte
structure (the declaration header coming first).  An `xml.Encoder` is
modelled as a buffered token stream: `EncodeToken` appends to the buffer
without writing, `Flush` moves the buffer to the written stream — exactly
the behaviour `Data.MarshalXML` relies on when it flushes at the end. -/

inductive XmlToken where
  | startEl (name : String)
  | charData (s : String)
  | endEl (name : String)
deriving DecidableEq

/-- Go `xml.EscapeText` on one character (the escapes the encoder applies
to character data). -/
def xmlEscapeChar (c : Char) : String :=
  if c = '"' then "&#34;"
  else if c = Char.ofNat 39 then "&#39;"
  else if c = '&' then "&amp;"
  else if c = '<' then "&lt;"
  else if c = '>' then "&gt;"
  else if c = '\t' then "&#x9;"
  else if c = '\n' then "&#xA;"
  else if c = '\r' then "&#xD;"
  else String.mk [c]

/-- Go `xml.EscapeText` on a whole character-data string. -/
def xmlEscape (s : String) : String :=
  String.join (s.data.map xmlEscapeChar)

/-- The bytes the encoder emits for one token. -/
def xmlTokenString : XmlToken → String
  | XmlToken.startEl name => "<" ++ name ++ ">"
  | XmlToken.charData s => xmlEscape s
  | XmlToken.endEl name => "</" ++ name ++ ">"

/-- The bytes the encoder emits for a token sequence. -/
def xmlTokensString (ts : List XmlToken) : String :=
  String.join (ts.map xmlTokenString)

/-- Buffered `xml.Encoder` state: `written` already reached the sink,
`buffered` is waiting for a `Flush`. -/
structure XmlEncoder where
  written : List XmlToken
  buffered : List XmlToken
deriving DecidableEq

/-- `Encoder.EncodeToken`: buffer the token. -/
def XmlEncoder.encodeToken (e : XmlEncoder) (t : XmlToken) : XmlEncoder :=
  { e with buffered := e.buffered ++ [t] }

/-- `Encoder.Flush`: push every buffered token out. -/
def XmlEncoder.flush (e : XmlEncoder) : XmlEncoder :=
  { written := e.written ++ e.buffered, buffered := [] }

/-! ## `aah.Data` and its XML mapper -/

/-- `aah.Data` is `map[string]interface{}`; it is modelled as an ordered
association list — the list order stands for the (unspecified) map
iteration order of one particular run. -/
abbrev Data := List (String × GoVal)

/-- The three tokens `Data.MarshalXML` builds for one key/value entry:
a start element named by title-casing the key, the value's default string
representation as character data, and the matching end element. -/
def dataEntryTokens (kv : String × GoVal) : List XmlToken :=
  [XmlToken.startEl (stringsTitle kv.1),
   XmlToken.charData (goSprintV kv.2),
   XmlToken.endEl (stringsTitle kv.1)]

/-- The full token list `Data.MarshalXML` builds: the caller-supplied start
element, the per-entry triples, then the matching end element. -/
def Data.marshalXMLTokens (d : Data) (start : String) : List XmlToken :=
  [XmlToken.startEl start] ++ d.flatMap dataEntryTokens ++ [XmlToken.endEl start]

/-- `Data.MarshalXML`: build the token list, feed every token to
`EncodeToken`, then `Flush` the encoder. -/
def Data.marshalXML (d : Data) (e : XmlEncoder) (start : String) : XmlEncoder :=
  ((d.marshalXMLTokens start).foldl XmlEncoder.encodeToken e).flush

/-! ## XML renderer (`xmlRender`) -/

/-- `xml.Header` as a byte string: the XML declaration plus a newline. -/
def xmlHeaderBytes : String := "<?xml version=\"1.0\" encoding=\"UTF-8\"?>\n"

structure xmlRender where
  Data : Data

/-- The bytes `xml.NewEncoder(w).Encode` produces for a `Data` payload: the
custom marshaller runs with the type-derived start element named Data, and
`Encode` ends in a flush, so the sink receives exactly the token bytes. -/
def xmlEncodeData (d : Data) : String :=
  xmlTokensString (d.marshalXMLTokens "Data")

/-- `xmlRender.Render`: write the XML declaration header first, returning
early on a write error, then encode the payload. -/
def xmlRender.Render (x : xmlRender) (w : Sink) : Sink × Except String Unit :=
  match w.write xmlHeaderBytes with
  | (w1, Except.error e) => (w1, Except.error e)
  | (w1, Except.ok _) => w1.write (xmlEncodeData x.Data)

/-! ## Secure JSON renderer (`secureJSONRender`)

The Go field `Prefix` is rendered here as `Pre`. -/

structure secureJSONRender where
  Pre : String
  Data : JVal

/-- `secureJSONRender.Render`: write the configured guard string first,
returning early on a write error, then the encoder output (marshalled
bytes plus newline). -/
def secureJSONRender.Render (s : secureJSONRender) (w : Sink) : Sink × Except String Unit :=
  match w.write s.Pre with
  | (w1, Except.error e) => (w1, Except.error e)
  | (w1, Except.ok _) => w1.write (jsonMarshal s.Data ++ "\n")

/-! ## Binary renderer (`binaryRender`)

The file system is an explicit lookup: a path resolves to nothing, to a
directory, or to a regular file with known contents.  `os.Open` fails on a
missing path with a path error; `Stat` is modelled as succeeding whenever
`Open` did.  A reader payload is modelled by its remaining contents. -/

inductive FsEntry where
  | dir
  | file (contents : String)
deriving DecidableEq

structure binaryRender where
  Path : String
  Reader : Option String

/-- `binaryRender.Render`: a non-nil reader is copied to the sink (and
closed, best-effort — closing has no observable effect here); otherwise the
path is opened (failing with the open error when it does not exist),
rejected with a directory error when it is a directory, and copied
otherwise. -/
def binaryRender.Render (fs : String → Option FsEntry) (f : binaryRender) (w : Sink) :
    Sink × Except String Unit :=
  match f.Reader with
  | some contents => w.write contents
  | none =>
    match fs f.Path with
    | none => (w, Except.error ("open " ++ f.Path ++ ": no such file or directory"))
    | some FsEntry.dir => (w, Except.error ("\x27" ++ f.Path ++ "\x27 is a directory"))
    | some (FsEntry.file contents) => w.write contents


/-! ## Remaining renderer payloads

The text renderer and the HTML renderer are carried by the builder but no
claim depends on their byte output (text formatting and template execution
are delegated to `fmt` and `html/template`); only their payload shape is
modelled. -/

structure textRender where
  Format : String
  Values : List GoVal
deriving DecidableEq

/-- `htmlRender` as attached by the builder: the template handle is always
unresolved (`nil`) at attach time and is filled in later by the external
view-resolution collaborator, so it is not part of this model. -/
structure htmlRender where
  Layout : String
  Filename : String
  ViewArgs : Data
deriving DecidableEq

/-- The closed set of renderers a `Reply` can carry (the builder attaches
at most one; `Reply.Render` replaces it). -/
inductive Render where
  | text (t : textRender)
  | json (j : jsonRender)
  | jsonp (j : jsonpRender)
  | secureJSON (s : secureJSONRender)
  | xml (x : xmlRender)
  | binary (b : binaryRender)
  | html (h : htmlRender)

/-! ## HTTP constants (`ahttp` content types and header names) -/

def contentTypeJSON : String := "application/json; charset=utf-8"

def contentTypeJavascript : String := "application/javascript; charset=utf-8"

def contentTypeXML : String := "application/xml; charset=utf-8"

def contentTypePlainText : String := "text/plain; charset=utf-8"

def contentTypeHTML : String := "text/html; charset=utf-8"

def headerContentType : String := "Content-Type"

def headerContentDisposition : String := "Content-Disposition"

/-! ## Response headers (`ctx.Res.Header()`)

`http.Header` is a map from header keys to value lists; it is modelled as
an association list.  `Set` replaces the key's values, `Del` removes the
key, `Add` appends one value to the key's list. -/

abbrev Headers := List (String × List String)

def headersDel (hs : Headers) (key : String) : Headers :=
  hs.filter (fun kv => kv.1 != key)

def headersSet (hs : Headers) (key value : String) : Headers :=
  headersDel hs key ++ [(key, [value])]

def headersAdd (hs : Headers) (key value : String) : Headers :=
  match hs with
  | [] => [(key, [value])]
  | kv :: rest =>
    if kv.1 = key then (kv.1, kv.2 ++ [value]) :: rest
    else kv :: headersAdd rest key value

/-! ## Cookies and errors -/

/-- `http.Cookie`, modelled by the fields the builder ever touches. -/
structure Cookie where
  Name : String
  Value : String
deriving DecidableEq

/-- `aah.Error`, modelled by its code and message (the builder only stores
the pointer; it never inspects the fields). -/
structure AahError where
  Code : Int
  Message : String
deriving DecidableEq

/-! ## The `Reply` builder

The Go struct plus the two pieces of per-request context state it reads or
writes through `r.ctx`: the application base directory (read by `File`),
the configured secure-JSON guard string (read by `JSONSecure`), and the
response header map (written by `Header`/`HeaderAppend`).  Every fluent
method returns the updated value, which models returning the receiver
pointer. -/

structure Reply where
  Rdr : Option Render
  Code : Int
  ContType : String
  redirect : Bool
  done : Bool
  gzip : Bool
  path : String
  body : Option String
  cookies : List Cookie
  err : Option AahError
  ctxBaseDir : String
  ctxSecureJSONPre : String
  ctxResHeaders : Headers

/-- `newReply`: status 200, gzip eligible, everything else zero-valued. -/
def newReply (baseDir securePre : String) : Reply :=
  { Rdr := none, Code := 200, ContType := "", redirect := false, done := false,
    gzip := true, path := "", body := none, cookies := [], err := none,
    ctxBaseDir := baseDir, ctxSecureJSONPre := securePre, ctxResHeaders := [] }

/-- `Reply.Status`: set the status code unconditionally. -/
def Reply.Status (r : Reply) (code : Int) : Reply :=
  { r with Code := code }

def Reply.Ok (r : Reply) : Reply := r.Status 200

def Reply.Created (r : Reply) : Reply := r.Status 201

def Reply.Accepted (r : Reply) : Reply := r.Status 202

def Reply.NoContent (r : Reply) : Reply := r.Status 204

def Reply.MovedPermanently (r : Reply) : Reply := r.Status 301

def Reply.Found (r : Reply) : Reply := r.Status 302

def Reply.TemporaryRedirect (r : Reply) : Reply := r.Status 307

def Reply.BadRequest (r : Reply) : Reply := r.Status 400

def Reply.Unauthorized (r : Reply) : Reply := r.Status 401

def Reply.Forbidden (r : Reply) : Reply := r.Status 403

def Reply.NotFound (r : Reply) : Reply := r.Status 404

def Reply.MethodNotAllowed (r : Reply) : Reply := r.Status 405

def Reply.NotAcceptable (r : Reply) : Reply := r.Status 406

def Reply.Conflict (r : Reply) : Reply := r.Status 409

def Reply.UnsupportedMediaType (r : Reply) : Reply := r.Status 415

def Reply.InternalServerError (r : Reply) : Reply := r.Status 500

def Reply.ServiceUnavailable (r : Reply) : Reply := r.Status 503

/-- `Reply.ContentType`: first write wins — store the lower-cased value
only while no content type is stored yet. -/
def Reply.ContentType (r : Reply) (contentType : String) : Reply :=
  if r.ContType.length = 0 then { r with ContType := stringsToLower contentType }
  else r

/-- `Reply.Render`: attach (replace) the renderer. -/
def Reply.Render (r : Reply) (rdr : Render) : Reply :=
  { r with Rdr := some rdr }

def Reply.JSON (r : Reply) (data : JVal) : Reply :=
  (r.ContentType contentTypeJSON).Render (Render.json { Data := data })

def Reply.JSONSecure (r : Reply) (data : JVal) : Reply :=
  (r.ContentType contentTypeJSON).Render
    (Render.secureJSON { Pre := r.ctxSecureJSONPre, Data := data })

def Reply.JSONP (r : Reply) (data : JVal) (callback : String) : Reply :=
  (r.ContentType contentTypeJavascript).Render
    (Render.jsonp { Callback := callback, Data := data })

def Reply.XML (r : Reply) (data : Data) : Reply :=
  (r.ContentType contentTypeXML).Render (Render.xml { Data := data })

def Reply.Text (r : Reply) (format : String) (values : List GoVal) : Reply :=
  (r.ContentType contentTypePlainText).Render
    (Render.text { Format := format, Values := values })

/-- `Reply.FromReader`: attach a reader-backed binary renderer (the reader
is modelled by its remaining contents). -/
def Reply.FromReader (r : Reply) (contents : String) : Reply :=
  r.Render (Render.binary { Path := "", Reader := some contents })

/-- `Reply.Binary`: wrap the bytes as a reader and delegate. -/
def Reply.Binary (r : Reply) (b : String) : Reply :=
  r.FromReader b

/-- `filepath.IsAbs` on the slash-separated paths the model uses. -/
def filepathIsAbs (p : String) : Bool :=
  p.startsWith "/"

/-- `filepath.Join` of the base directory and a relative path (modelled
without path cleaning, which the claims never observe). -/
def filepathJoin (a b : String) : String :=
  a ++ "/" ++ b

/-- The absolute path `Reply.File` serves: a relative path is joined onto
the application base directory. -/
def resolveFilePath (baseDir file : String) : String :=
  if filepathIsAbs file then file else filepathJoin baseDir file

/-- `Reply.File`: resolve the path, overwrite the gzip-eligibility flag
with the verdict of the external gzip-worthiness collaborator
(`util.IsGzipWorthForFile`, passed here as the function `worth`), and
attach a path-backed binary renderer. -/
def Reply.File (r : Reply) (worth : String → Bool) (file : String) : Reply :=
  let f := resolveFilePath r.ctxBaseDir file
  ({ r with gzip := worth f }).Render (Render.binary { Path := f, Reader := none })

/-- `Reply.Header`: an empty value deletes the header, except that the
reserved content-type key always routes through `ContentType`; a non-empty
value sets (replaces) the header. -/
def Reply.Header (r : Reply) (key value : String) : Reply :=
  if value.length = 0 then
    if key = headerContentType then r.ContentType ""
    else { r with ctxResHeaders := headersDel r.ctxResHeaders key }
  else
    if key = headerContentType then r.ContentType value
    else { r with ctxResHeaders := headersSet r.ctxResHeaders key value }

/-- `Reply.HeaderAppend`: append the value, except that the reserved
content-type key routes through `ContentType`. -/
def Reply.HeaderAppend (r : Reply) (key value : String) : Reply :=
  if key = headerContentType then r.ContentType value
  else { r with ctxResHeaders := headersAdd r.ctxResHeaders key value }

def Reply.FileDownload (r : Reply) (worth : String → Bool) (file targetName : String) : Reply :=
  (r.Header headerContentDisposition ("attachment; filename=" ++ targetName)).File worth file

def Reply.FileInline (r : Reply) (worth : String → Bool) (file targetName : String) : Reply :=
  (r.Header headerContentDisposition ("inline; filename=" ++ targetName)).File worth file

def Reply.HTMLlf (r : Reply) (layout filename : String) (data : Data) : Reply :=
  (r.ContentType contentTypeHTML).Render
    (Render.html { Layout := layout, Filename := filename, ViewArgs := data })

def Reply.HTML (r : Reply) (data : Data) : Reply :=
  r.HTMLlf "" "" data

def Reply.HTMLl (r : Reply) (layout : String) (data : Data) : Reply :=
  r.HTMLlf layout "" data

def Reply.HTMLf (r : Reply) (filename : String) (data : Data) : Reply :=
  r.HTMLlf "" filename data

def Reply.RedirectWithStatus (r : Reply) (redirectURL : String) (code : Int) : Reply :=
  { r.Status code with redirect := true, path := redirectURL }

def Reply.Redirect (r : Reply) (redirectURL : String) : Reply :=
  r.RedirectWithStatus redirectURL 302

/-- `Reply.Error`: attach the error object for external takeover. -/
def Reply.Error (r : Reply) (e : AahError) : Reply :=
  { r with err := some e }

/-- `Reply.Done`: mark the response as already written. -/
def Reply.Done (r : Reply) : Reply :=
  { r with done := true }

/-- `Reply.Cookie`: append the cookie (the nil-check in Go only allocates
the slice, which the list model needs no counterpart of). -/
def Reply.Cookie (r : Reply) (c : Cookie) : Reply :=
  { r with cookies := r.cookies ++ [c] }

/-- `Reply.DisableGzip`: force the gzip-eligibility flag off. -/
def Reply.DisableGzip (r : Reply) : Reply :=
  { r with gzip := false }

/-- `Reply.IsContentTypeSet`: observer, no side effect. -/
def Reply.IsContentTypeSet (r : Reply) : Bool :=
  r.ContType.length > 0

/-! ## Builder operations as data

To state properties over arbitrary sequences of fluent calls, the public
configuration surface is reified as a datatype with an `apply` function.
The 17 status shortcuts are represented through `status` (each shortcut is
literally `Status` at a fixed code, proved as claim C8).  File-serving
operations take the external gzip-worthiness collaborator `worth` as a
parameter of `apply`. -/

inductive BuilderOp where
  | status (code : Int)
  | contentType (v : String)
  | json (d : JVal)
  | jsonSecure (d : JVal)
  | jsonp (d : JVal) (cb : String)
  | xml (d : Data)
  | text (f : String) (vs : List GoVal)
  | binary (b : String)
  | fromReader (s : String)
  | file (f : String)
  | fileDownload (f n : String)
  | fileInline (f n : String)
  | html (d : Data)
  | htmll (l : String) (d : Data)
  | htmlf (fn : String) (d : Data)
  | htmllf (l fn : String) (d : Data)
  | redirect (u : String)
  | redirectWithStatus (u : String) (c : Int)
  | error (e : AahError)
  | render (rd : Render)
  | header (k v : String)
  | headerAppend (k v : String)
  | done
  | cookie (c : Cookie)
  | disableGzip

def BuilderOp.apply (worth : String → Bool) (op : BuilderOp) (r : Reply) : Reply :=
  match op with
  | BuilderOp.status c => r.Status c
  | BuilderOp.contentType v => r.ContentType v
  | BuilderOp.json d => r.JSON d
  | BuilderOp.jsonSecure d => r.JSONSecure d
  | BuilderOp.jsonp d cb => r.JSONP d cb
  | BuilderOp.xml d => r.XML d
  | BuilderOp.text f vs => r.Text f vs
  | BuilderOp.binary b => r.Binary b
  | BuilderOp.fromReader s => r.FromReader s
  | BuilderOp.file f => r.File worth f
  | BuilderOp.fileDownload f n => r.FileDownload worth f n
  | BuilderOp.fileInline f n => r.FileInline worth f n
  | BuilderOp.html d => r.HTML d
  | BuilderOp.htmll l d => r.HTMLl l d
  | BuilderOp.htmlf fn d => r.HTMLf fn d
  | BuilderOp.htmllf l fn d => r.HTMLlf l fn d
  | BuilderOp.redirect u => r.Redirect u
  | BuilderOp.redirectWithStatus u c => r.RedirectWithStatus u c
  | BuilderOp.error e => r.Error e
  | BuilderOp.render rd => r.Render rd
  | BuilderOp.header k v => r.Header k v
  | BuilderOp.headerAppend k v => r.HeaderAppend k v
  | BuilderOp.done => r.Done
  | BuilderOp.cookie c => r.Cookie c
  | BuilderOp.disableGzip => r.DisableGzip

/-- The operations that delegate to `Reply.File` (and hence overwrite the
gzip flag with the heuristic's verdict). -/
def BuilderOp.isFileOp : BuilderOp → Bool
  | BuilderOp.file _ => true
  | BuilderOp.fileDownload _ _ => true
  | BuilderOp.fileInline _ _ => true
  | _ => false

/-- Apply a whole sequence of fluent calls, left to right. -/
def applyOps (worth : String → Bool) (ops : List BuilderOp) (r : Reply) : Reply :=
  ops.foldl (fun r op => op.apply worth r) r

/-! ## Helper lemmas -/

theorem string_length_eq_zero_iff (s : String) : s.length = 0 ↔ s = "" := by
  constructor
  · intro h
    cases s with
    | mk data =>
      cases data with
      | nil => rfl
      | cons a l => simp [String.length] at h
  · intro h
    subst h
    rfl

theorem stringsToLower_ne_empty (s : String) (h : s ≠ "") : stringsToLower s ≠ "" := by
  intro hc
  apply h
  have hd := congrArg String.data hc
  cases s with
  | mk data =>
    cases data with
    | nil => rfl
    | cons a l => simp [stringsToLower] at hd

/-- Once the content type is non-empty, `ContentType` is the identity. -/
theorem contentType_noop (r : Reply) (v : String) (h : r.ContType ≠ "") :
    r.ContentType v = r := by
  unfold Reply.ContentType
  rw [if_neg]
  intro hlen
  exact h ((string_length_eq_zero_iff r.ContType).mp hlen)

/-- `ContentType` never touches the gzip flag. -/
theorem gzip_contentType (r : Reply) (v : String) : (r.ContentType v).gzip = r.gzip := by
  unfold Reply.ContentType
  split <;> rfl

/-- `Header` never touches the gzip flag. -/
theorem gzip_header (r : Reply) (k v : String) : (r.Header k v).gzip = r.gzip := by
  unfold Reply.Header
  split <;> split <;> simp [gzip_contentType]

/-- `HeaderAppend` never touches the gzip flag. -/
theorem gzip_headerAppend (r : Reply) (k v : String) :
    (r.HeaderAppend k v).gzip = r.gzip := by
  unfold Reply.HeaderAppend
  split <;> simp [gzip_contentType]

/-- Every non-file builder operation preserves a cleared gzip flag. -/
theorem apply_gzip_false (worth : String → Bool) (op : BuilderOp) (r : Reply)
    (hop : op.isFileOp = false) (hg : r.gzip = false) :
    (op.apply worth r).gzip = false := by
  cases op <;>
    simp_all [BuilderOp.apply, BuilderOp.isFileOp, Reply.Status, Reply.JSON,
      Reply.JSONSecure, Reply.JSONP, Reply.XML, Reply.Text, Reply.Binary,
      Reply.FromReader, Reply.HTML, Reply.HTMLl, Reply.HTMLf, Reply.HTMLlf,
      Reply.Redirect, Reply.RedirectWithStatus, Reply.Error, Reply.Render,
      Reply.Done, Reply.Cookie, Reply.DisableGzip, gzip_contentType,
      gzip_header, gzip_headerAppend]

/-- Attaching a renderer never touches the content type. -/
theorem contType_render (r : Reply) (rdr : Render) : (r.Render rdr).ContType = r.ContType :=
  rfl

/-- A set-content-type-then-attach step preserves an already-set content
type. -/
theorem contType_ct_render (r : Reply) (v : String) (rdr : Render) (h : r.ContType ≠ "") :
    ((r.ContentType v).Render rdr).ContType = r.ContType := by
  rw [contentType_noop r v h]
  rfl

/-- `Header` preserves an already-set content type (both key cases, both
value cases). -/
theorem contType_header (r : Reply) (k v : String) (h : r.ContType ≠ "") :
    (r.Header k v).ContType = r.ContType := by
  unfold Reply.Header
  split
  · split
    · rw [contentType_noop r "" h]
    · rfl
  · split
    · rw [contentType_noop r v h]
    · rfl

/-- `HeaderAppend` preserves an already-set content type. -/
theorem contType_headerAppend (r : Reply) (k v : String) (h : r.ContType ≠ "") :
    (r.HeaderAppend k v).ContType = r.ContType := by
  unfold Reply.HeaderAppend
  split
  · rw [contentType_noop r v h]
  · rfl

/-- Feeding a token list to `EncodeToken` appends it to the buffer. -/
theorem foldl_encodeToken (ts : List XmlToken) (e : XmlEncoder) :
    ts.foldl XmlEncoder.encodeToken e
      = { written := e.written, buffered := e.buffered ++ ts } := by
  induction ts generalizing e with
  | nil => simp
  | cons t rest ih => simp [XmlEncoder.encodeToken, ih]

/-! ## Claim theorems -/

/-- C1: the claim says that on a Reply whose content type is already set
to a non-empty value, `Header` with the reserved Content-Type key and an
empty value clears the content type.  Evaluating the code at that input
shows the opposite: the call routes through the first-write-wins
`ContentType`, which ignores the empty value while a content type is
stored, so the Reply is returned completely unchanged and
`IsContentTypeSet` still answers true. -/
theorem C1_header_empty_contentType_eval :
    (((newReply "" "").ContentType "text/plain").Header headerContentType "")
      = (newReply "" "").ContentType "text/plain" ∧
    (((newReply "" "").ContentType "text/plain").Header headerContentType "").IsContentTypeSet
      = true :=
  ⟨rfl, rfl⟩

/-- C2 counterexample: with a gzip-worthiness heuristic that judges the
file worth compressing, a `File` call made after `DisableGzip` sets the
gzip-eligibility flag back to true — the claim says it must stay false. -/
theorem C2_counterexample :
    (((newReply "" "").DisableGzip).File (fun _ => true) "/a.txt").gzip = true :=
  rfl

/-- C2 amended: after `DisableGzip` the gzip-eligibility flag is false and
stays false under every later builder call that is not one of the
file-serving operations; a file-serving call overwrites the flag with the
gzip-worthiness collaborator's verdict on the resolved path (which may be
true). -/
theorem C2_disableGzip_amended (worth : String → Bool) (r : Reply) (ops : List BuilderOp)
    (hops : ∀ op ∈ ops, op.isFileOp = false) (p : String) :
    (applyOps worth ops r.DisableGzip).gzip = false ∧
    ((r.DisableGzip).File worth p).gzip = worth (resolveFilePath r.ctxBaseDir p) := by
  constructor
  · have key : ∀ (ops : List BuilderOp) (r : Reply),
        (∀ op ∈ ops, op.isFileOp = false) → r.gzip = false →
        (applyOps worth ops r).gzip = false := by
      intro ops
      induction ops with
      | nil => intro r _ hg; exact hg
      | cons op rest ih =>
        intro r hops hg
        have h1 : (op.apply worth r).gzip = false :=
          apply_gzip_false worth op r (hops op (List.mem_cons_self op rest)) hg
        exact ih (op.apply worth r) (fun o ho => hops o (List.mem_cons_of_mem op ho)) h1
    exact key ops r.DisableGzip hops rfl
  · rfl

/-- C2 witness: the amended claim evaluated at a concrete run — disable
gzip, then set a status and attach a JSON renderer (the flag stays false),
and separately serve a file under an always-worthy heuristic (the flag
takes the heuristic's verdict). -/
theorem C2_witness :
    (applyOps (fun _ => true) [BuilderOp.status 404, BuilderOp.json JVal.jnull]
        ((newReply "" "").DisableGzip)).gzip = false ∧
    (((newReply "" "").DisableGzip).File (fun _ => true) "/a.txt").gzip
      = (fun _ => true) (resolveFilePath "" "/a.txt") :=
  C2_disableGzip_amended (fun _ => true) (newReply "" "")
    [BuilderOp.status 404, BuilderOp.json JVal.jnull]
    (by
      intro op hop
      rcases List.mem_cons.mp hop with h | hop
      · subst h; rfl
      rcases List.mem_cons.mp hop with h | hop
      · subst h; rfl
      · cases hop)
    "/a.txt"

/-- C4: `ContentType` is first-write-wins — on a Reply with no stored
content type, the first call stores the lower-cased value, and a second
call with any other value leaves the Reply exactly as the first call left
it. -/
theorem C4_contentType_first_write_wins (r : Reply) (v w : String)
    (h0 : r.ContType = "") (hv : v ≠ "") :
    (r.ContentType v).ContType = stringsToLower v ∧
    (r.ContentType v).ContentType w = r.ContentType v := by
  have h1 : (r.ContentType v).ContType = stringsToLower v := by
    unfold Reply.ContentType
    rw [if_pos ((string_length_eq_zero_iff r.ContType).mpr h0)]
  refine ⟨h1, ?_⟩
  apply contentType_noop
  rw [h1]
  exact stringsToLower_ne_empty v hv

/-- C4 witness: the first-write-wins theorem evaluated on a fresh Reply —
the first call stores the lower-cased value, the second call (with a
different value) changes nothing. -/
theorem C4_witness :
    ((newReply "" "").ContentType "Text/Plain; Charset=UTF-8").ContType
      = stringsToLower "Text/Plain; Charset=UTF-8" ∧
    (((newReply "" "").ContentType "Text/Plain; Charset=UTF-8").ContentType
        "application/json; charset=utf-8")
      = (newReply "" "").ContentType "Text/Plain; Charset=UTF-8" :=
  C4_contentType_first_write_wins (newReply "" "") "Text/Plain; Charset=UTF-8"
    "application/json; charset=utf-8" rfl (by decide)

/-- C8: each named status shortcut is exactly `Status` at its documented
standard code — it changes the status field to that code and nothing
else, returning the builder. -/
theorem C8_status_shortcuts (r : Reply) :
    r.Ok = { r with Code := 200 } ∧ r.Created = { r with Code := 201 } ∧
    r.Accepted = { r with Code := 202 } ∧ r.NoContent = { r with Code := 204 } ∧
    r.MovedPermanently = { r with Code := 301 } ∧ r.Found = { r with Code := 302 } ∧
    r.TemporaryRedirect = { r with Code := 307 } ∧ r.BadRequest = { r with Code := 400 } ∧
    r.Unauthorized = { r with Code := 401 } ∧ r.Forbidden = { r with Code := 403 } ∧
    r.NotFound = { r with Code := 404 } ∧ r.MethodNotAllowed = { r with Code := 405 } ∧
    r.NotAcceptable = { r with Code := 406 } ∧ r.Conflict = { r with Code := 409 } ∧
    r.UnsupportedMediaType = { r with Code := 415 } ∧
    r.InternalServerError = { r with Code := 500 } ∧
    r.ServiceUnavailable = { r with Code := 503 } :=
  ⟨rfl, rfl, rfl, rfl, rfl, rfl, rfl, rfl, rfl, rfl, rfl, rfl, rfl, rfl, rfl, rfl, rfl⟩

/-- C9: `Error` stores the error object and changes nothing else — the
renderer, status, content type, redirect flag and target, done flag, gzip
flag, body buffer, cookies and response headers are all unchanged. -/
theorem C9_error_frame (r : Reply) (e : AahError) :
    (r.Error e).err = some e ∧ (r.Error e).Rdr = r.Rdr ∧ (r.Error e).Code = r.Code ∧
    (r.Error e).ContType = r.ContType ∧ (r.Error e).redirect = r.redirect ∧
    (r.Error e).path = r.path ∧ (r.Error e).done = r.done ∧ (r.Error e).gzip = r.gzip ∧
    (r.Error e).body = r.body ∧ (r.Error e).cookies = r.cookies ∧
    (r.Error e).ctxResHeaders = r.ctxResHeaders :=
  ⟨rfl, rfl, rfl, rfl, rfl, rfl, rfl, rfl, rfl, rfl, rfl⟩

/-- C10: once the content type is non-empty, every builder operation
preserves it — the content-setting operations and the header operations on
the reserved key all route through the first-write-wins `ContentType`, and
the rest never touch the field. -/
theorem C10_contentType_preserved (worth : String → Bool) (op : BuilderOp) (r : Reply)
    (h : r.ContType ≠ "") :
    (op.apply worth r).ContType = r.ContType := by
  cases op with
  | status c => rfl
  | contentType v => exact congrArg Reply.ContType (contentType_noop r v h)
  | json d => exact contType_ct_render r contentTypeJSON _ h
  | jsonSecure d => exact contType_ct_render r contentTypeJSON _ h
  | jsonp d cb => exact contType_ct_render r contentTypeJavascript _ h
  | xml d => exact contType_ct_render r contentTypeXML _ h
  | text f vs => exact contType_ct_render r contentTypePlainText _ h
  | binary b => rfl
  | fromReader s => rfl
  | file f => rfl
  | fileDownload f n =>
    exact contType_header r headerContentDisposition ("attachment; filename=" ++ n) h
  | fileInline f n =>
    exact contType_header r headerContentDisposition ("inline; filename=" ++ n) h
  | html d => exact contType_ct_render r contentTypeHTML _ h
  | htmll l d => exact contType_ct_render r contentTypeHTML _ h
  | htmlf fn d => exact contType_ct_render r contentTypeHTML _ h
  | htmllf l fn d => exact contType_ct_render r contentTypeHTML _ h
  | redirect u => rfl
  | redirectWithStatus u c => rfl
  | error e => rfl
  | render rd => rfl
  | header k v => exact contType_header r k v h
  | headerAppend k v => exact contType_headerAppend r k v h
  | done => rfl
  | cookie c => rfl
  | disableGzip => rfl

/-- C10 witness: a Reply whose content type is already set keeps it across
a JSON attach (which would otherwise set the JSON MIME type). -/
theorem C10_witness :
    (BuilderOp.apply (fun _ => false) (BuilderOp.json JVal.jnull)
        ((newReply "" "").ContentType "text/html; charset=utf-8")).ContType
      = ((newReply "" "").ContentType "text/html; charset=utf-8").ContType :=
  C10_contentType_preserved (fun _ => false) (BuilderOp.json JVal.jnull)
    ((newReply "" "").ContentType "text/html; charset=utf-8") (by decide)

/-- C3 counterexample: the JSONP renderer wraps the output of
`json.Marshal`, which carries no trailing newline, so for callback cb and
payload with the single field a mapped to 1 the written bytes end in a
close parenthesis and semicolon directly after the close brace — not the
newline-carrying byte sequence the claim pins. -/
theorem C3_counterexample :
    (jsonpRender.Render
        { Callback := "cb", Data := JVal.jobj (JObj.cons "a" (JVal.jnum 1) JObj.nil) }
        Sink.fresh).1.out = "cb(\x7b\"a\":1\x7d);" ∧
    (jsonpRender.Render
        { Callback := "cb", Data := JVal.jobj (JObj.cons "a" (JVal.jnum 1) JObj.nil) }
        Sink.fresh).1.out ≠ "cb(\x7b\"a\":1\x7d\n);" := by
  exact ⟨by decide, by decide⟩

/-- C3 amended: with an empty callback the JSONP renderer writes exactly
the plain `json.Marshal` bytes of the payload; with a non-empty callback
name it writes exactly the wrapper — name, open parenthesis, the marshal
bytes, close parenthesis, semicolon — with no trailing newline, so for
callback cb and the payload with single field a mapped to 1 the bytes are
the close-brace-parenthesis-semicolon sequence; both writes succeed on a
fault-free sink. -/
theorem C3_jsonp_amended (data : JVal) (cb : String) (w : Sink)
    (hw : w.failAt = none) (hcb : cb ≠ "") :
    (jsonpRender.Render { Callback := "", Data := data } w).1.out
      = w.out ++ jsonMarshal data ∧
    (jsonpRender.Render { Callback := "", Data := data } w).2 = Except.ok () ∧
    (jsonpRender.Render { Callback := cb, Data := data } w).1.out
      = w.out ++ (cb ++ "(" ++ jsonMarshal data ++ ");") ∧
    (jsonpRender.Render { Callback := cb, Data := data } w).2 = Except.ok () ∧
    (jsonpRender.Render
        { Callback := "cb", Data := JVal.jobj (JObj.cons "a" (JVal.jnum 1) JObj.nil) }
        Sink.fresh).1.out = "cb(\x7b\"a\":1\x7d);" := by
  have hlen : ¬cb.length = 0 := fun hl => hcb ((string_length_eq_zero_iff cb).mp hl)
  unfold jsonpRender.Render Sink.write
  simp [hw, hlen]
  decide

/-- C3 witness: the amended JSONP theorem evaluated at callback cb and the
single-field payload, on a fresh fault-free sink. -/
theorem C3_witness :
    (jsonpRender.Render
        { Callback := "", Data := JVal.jobj (JObj.cons "a" (JVal.jnum 1) JObj.nil) }
        Sink.fresh).1.out
      = Sink.fresh.out ++ jsonMarshal (JVal.jobj (JObj.cons "a" (JVal.jnum 1) JObj.nil)) ∧
    (jsonpRender.Render
        { Callback := "", Data := JVal.jobj (JObj.cons "a" (JVal.jnum 1) JObj.nil) }
        Sink.fresh).2 = Except.ok () ∧
    (jsonpRender.Render
        { Callback := "cb", Data := JVal.jobj (JObj.cons "a" (JVal.jnum 1) JObj.nil) }
        Sink.fresh).1.out
      = Sink.fresh.out
        ++ ("cb" ++ "(" ++ jsonMarshal (JVal.jobj (JObj.cons "a" (JVal.jnum 1) JObj.nil)) ++ ");") ∧
    (jsonpRender.Render
        { Callback := "cb", Data := JVal.jobj (JObj.cons "a" (JVal.jnum 1) JObj.nil) }
        Sink.fresh).2 = Except.ok () ∧
    (jsonpRender.Render
        { Callback := "cb", Data := JVal.jobj (JObj.cons "a" (JVal.jnum 1) JObj.nil) }
        Sink.fresh).1.out = "cb(\x7b\"a\":1\x7d);" :=
  C3_jsonp_amended (JVal.jobj (JObj.cons "a" (JVal.jnum 1) JObj.nil)) "cb" Sink.fresh
    rfl (by decide)

/-- C5: the Data-to-XML mapper emits, inside the caller-supplied start and
end element, one title-cased start element, the value's default string
representation as character data, and the matching end element per entry,
and leaves the token encoder with an empty buffer (everything flushed) and
exactly those tokens written; for the mapping of name to x inside the root
element Root the token list is Root, Name, the character data x, and the
two matching end elements. -/
theorem C5_data_marshalXML (d : Data) (e : XmlEncoder) (start : String) :
    (d.marshalXML e start).buffered = [] ∧
    (d.marshalXML e start).written
      = e.written ++ e.buffered
        ++ ([XmlToken.startEl start] ++ d.flatMap dataEntryTokens ++ [XmlToken.endEl start]) ∧
    Data.marshalXMLTokens [("name", GoVal.str "x")] "Root"
      = [XmlToken.startEl "Root", XmlToken.startEl "Name", XmlToken.charData "x",
         XmlToken.endEl "Name", XmlToken.endEl "Root"] := by
  unfold Data.marshalXML
  rw [foldl_encodeToken]
  refine ⟨rfl, ?_, by decide⟩
  simp [XmlEncoder.flush, Data.marshalXMLTokens]

/-- C6: the XML renderer writes the XML declaration header first and the
encoded body after it — on a fault-free sink the output is exactly the
previous output, the header bytes, then the encoded payload; if the header
write fails the error is returned and nothing at all is written. -/
theorem C6_xml_render (x : xmlRender) (w : Sink) :
    (w.failAt = none →
      (xmlRender.Render x w).2 = Except.ok () ∧
      (xmlRender.Render x w).1.out = w.out ++ xmlHeaderBytes ++ xmlEncodeData x.Data) ∧
    (w.failAt = some w.calls →
      (xmlRender.Render x w).2 = Except.error "write failed" ∧
      (xmlRender.Render x w).1.out = w.out) := by
  constructor
  · intro hw
    unfold xmlRender.Render Sink.write
    simp [hw]
  · intro hw
    unfold xmlRender.Render Sink.write
    simp [hw]

/-- C6 witness: the XML render theorem evaluated on a fault-free fresh
sink (header then body) and on a sink whose first write fails (error, no
bytes). -/
theorem C6_witness :
    (xmlRender.Render { Data := [("name", GoVal.str "x")] } Sink.fresh).2 = Except.ok () ∧
    (xmlRender.Render { Data := [("name", GoVal.str "x")] } Sink.fresh).1.out
      = Sink.fresh.out ++ xmlHeaderBytes ++ xmlEncodeData [("name", GoVal.str "x")] ∧
    (xmlRender.Render { Data := [("name", GoVal.str "x")] }
        { failAt := some 0, calls := 0, out := "" }).2 = Except.error "write failed" ∧
    (xmlRender.Render { Data := [("name", GoVal.str "x")] }
        { failAt := some 0, calls := 0, out := "" }).1.out = "" :=
  ⟨((C6_xml_render { Data := [("name", GoVal.str "x")] } Sink.fresh).1 rfl).1,
   ((C6_xml_render { Data := [("name", GoVal.str "x")] } Sink.fresh).1 rfl).2,
   ((C6_xml_render { Data := [("name", GoVal.str "x")] }
       { failAt := some 0, calls := 0, out := "" }).2 rfl).1,
   ((C6_xml_render { Data := [("name", GoVal.str "x")] }
       { failAt := some 0, calls := 0, out := "" }).2 rfl).2⟩

/-- C7: the path-backed binary renderer fails on a directory path with the
error naming the path as a directory and writes nothing, and fails on a
non-existent path with the open error and writes nothing. -/
theorem C7_binary_path_errors (fs : String → Option FsEntry) (p : String) (w : Sink) :
    (fs p = some FsEntry.dir →
      (binaryRender.Render fs { Path := p, Reader := none } w).2
        = Except.error ("\x27" ++ p ++ "\x27 is a directory") ∧
      (binaryRender.Render fs { Path := p, Reader := none } w).1.out = w.out) ∧
    (fs p = none →
      (binaryRender.Render fs { Path := p, Reader := none } w).2
        = Except.error ("open " ++ p ++ ": no such file or directory") ∧
      (binaryRender.Render fs { Path := p, Reader := none } w).1.out = w.out) := by
  constructor <;> intro h <;> simp [binaryRender.Render, h]

/-- C7 witness: the binary path-error theorem evaluated on a one-directory
file system and on an empty file system. -/
theorem C7_witness :
    (binaryRender.Render (fun q => if q = "/srv/www" then some FsEntry.dir else none)
        { Path := "/srv/www", Reader := none } Sink.fresh).2
      = Except.error ("\x27" ++ "/srv/www" ++ "\x27 is a directory") ∧
    (binaryRender.Render (fun q => if q = "/srv/www" then some FsEntry.dir else none)
        { Path := "/srv/www", Reader := none } Sink.fresh).1.out = Sink.fresh.out ∧
    (binaryRender.Render (fun _ => none)
        { Path := "/missing.txt", Reader := none } Sink.fresh).2
      = Except.error ("open " ++ "/missing.txt" ++ ": no such file or directory") ∧
    (binaryRender.Render (fun _ => none)
        { Path := "/missing.txt", Reader := none } Sink.fresh).1.out = Sink.fresh.out :=
  ⟨((C7_binary_path_errors (fun q => if q = "/srv/www" then some FsEntry.dir else none)
       "/srv/www" Sink.fresh).1 (by decide)).1,
   ((C7_binary_path_errors (fun q => if q = "/srv/www" then some FsEntry.dir else none)
       "/srv/www" Sink.fresh).1 (by decide)).2,
   ((C7_binary_path_errors (fun _ => none) "/missing.txt" Sink.fresh).2 rfl).1,
   ((C7_binary_path_errors (fun _ => none) "/missing.txt" Sink.fresh).2 rfl).2⟩
